import Mathlib

/-!
A shallow embedding of the machine-orchestration layer of the StratoVirt
virtual-machine monitor (crate `machine`, file `src/lib.rs`, and the SCSI
configuration parser in `machine_manager/src/config/scsi.rs`), together with
theorems settling the specification claims about it.

External collaborators (the hypervisor, the `cpu` crate's per-vCPU
operations, `create_host_mmaps`, `add_subregion`, device realization
callbacks, the command-line sub-parser) are modelled as oracle parameters:
functions supplied to each embedded operation that decide whether the
corresponding fallible call succeeds and with which inner error.  Errors are
modelled as `error_chain` chains: a list of context strings, outermost
first; `chain_err` prepends a context string.
-/

namespace Stratovirt

/-- An `error_chain` error: the chain of context messages, outermost first. -/
abbrev Chain := List String

/-- Embeds `machine_manager::machine::KvmVmState`: the machine lifecycle state. -/
inductive KvmVmState
  | Created
  | Running
  | Paused
  | Shutdown
deriving DecidableEq, Repr

/-- Observable per-vCPU control state: which control operations have taken
effect on this vCPU (thread started, paused flag, destroyed). -/
structure CpuSt where
  started : Bool
  paused : Bool
  destroyed : Bool
deriving DecidableEq, Repr

/-- Observable events emitted by the lifecycle operations: per-vCPU control
calls (in the order they are issued), machine-state assignments, barrier
creation (with its size) and the controlling thread's barrier wait. -/
inductive Ev
  | runCpu (i : Nat)
  | pauseCpu (i : Nat)
  | resumeCpu (i : Nat)
  | destroyCpu (i : Nat)
  | setState (s : KvmVmState)
  | barrierNew (size : Nat)
  | barrierWait
deriving DecidableEq, Repr

/-- Result of a per-vCPU control loop: the vCPU states after the loop, the
per-vCPU calls issued (in order), and the error if the loop aborted. -/
structure LoopOut where
  cpus : List CpuSt
  events : List Ev
  err : Option Chain
deriving Repr

/-- The common shape of the `for (cpu_index, cpu) in cpus.iter().enumerate()`
loops in `vm_start`/`vm_pause`/`vm_resume`/`vm_destroy`: call `op` on each
vCPU in ascending index order; a success applies `upd` to that vCPU's state;
the first failure stops the loop, wraps the inner error with `msg i`
(`chain_err`) and leaves the remaining vCPUs untouched. -/
def opLoop (op : Nat → Except Chain Unit) (upd : CpuSt → CpuSt) (mkEv : Nat → Ev)
    (msg : Nat → String) : Nat → List CpuSt → LoopOut
  | _, [] => ⟨[], [], none⟩
  | i, c :: rest =>
    match op i with
    | Except.ok _ =>
      let r := opLoop op upd mkEv msg (i + 1) rest
      ⟨upd c :: r.cpus, mkEv i :: r.events, r.err⟩
    | Except.error ch => ⟨c :: rest, [mkEv i], some (msg i :: ch)⟩

/-- Result of a whole-machine lifecycle operation. -/
structure VmOut where
  cpus : List CpuSt
  state : KvmVmState
  events : List Ev
  err : Option Chain
deriving Repr

/-- Embeds `MachineOps::vm_start`: create a barrier of size `cpus.len() + 1`, start
every vCPU's execution thread in index order (first failure aborts with the
failing index), then assign the machine state (`Paused` when the `paused`
flag is set, `Running` otherwise) and only then wait on the barrier. -/
def vm_start (runOp : Nat → Except Chain Unit) (paused : Bool) (cpus : List CpuSt)
    (vm_state : KvmVmState) : VmOut :=
  let nr_vcpus := cpus.length
  let r := opLoop runOp (fun c => { c with started := true }) Ev.runCpu
    (fun i => "Failed to run vcpu" ++ toString i) 0 cpus
  match r.err with
  | some ch => ⟨r.cpus, vm_state, Ev.barrierNew (nr_vcpus + 1) :: r.events, some ch⟩
  | none =>
    let st2 := if paused then KvmVmState.Paused else KvmVmState.Running
    ⟨r.cpus, st2,
      Ev.barrierNew (nr_vcpus + 1) :: r.events ++ [Ev.setState st2, Ev.barrierWait], none⟩

/-- Embeds `MachineOps::vm_pause`: request every vCPU to pause in index order; the
first failure aborts citing the failing index and the machine state is not
assigned; on success the state becomes `Paused`.  (The x86_64 build is
modelled; on aarch64 the interrupt controller is additionally stopped, an
infallible call.) -/
def vm_pause (pauseOp : Nat → Except Chain Unit) (cpus : List CpuSt)
    (vm_state : KvmVmState) : VmOut :=
  let r := opLoop pauseOp (fun c => { c with paused := true }) Ev.pauseCpu
    (fun i => "Failed to pause vcpu" ++ toString i) 0 cpus
  match r.err with
  | some ch => ⟨r.cpus, vm_state, r.events, some ch⟩
  | none => ⟨r.cpus, KvmVmState.Paused, r.events, none⟩

/-- Embeds `MachineOps::vm_resume`: resume every vCPU in index order; first failure
aborts citing the failing index; on success the state becomes `Running`. -/
def vm_resume (resumeOp : Nat → Except Chain Unit) (cpus : List CpuSt)
    (vm_state : KvmVmState) : VmOut :=
  let r := opLoop resumeOp (fun c => { c with paused := false }) Ev.resumeCpu
    (fun i => "Failed to resume vcpu" ++ toString i) 0 cpus
  match r.err with
  | some ch => ⟨r.cpus, vm_state, r.events, some ch⟩
  | none => ⟨r.cpus, KvmVmState.Running, r.events, none⟩

/-- Embeds `MachineOps::vm_destroy`: destroy every vCPU in index order; first
failure aborts citing the failing index; on success the state becomes
`Shutdown`. -/
def vm_destroy (destroyOp : Nat → Except Chain Unit) (cpus : List CpuSt)
    (vm_state : KvmVmState) : VmOut :=
  let r := opLoop destroyOp (fun c => { c with destroyed := true }) Ev.destroyCpu
    (fun i => "Failed to destroy vcpu" ++ toString i) 0 cpus
  match r.err with
  | some ch => ⟨r.cpus, vm_state, r.events, some ch⟩
  | none => ⟨r.cpus, KvmVmState.Shutdown, r.events, none⟩

/-- Embeds `chain_err`: prepend a context message to an error, if any. -/
def chainCtx (m : String) : Option Chain → Option Chain
  | some ch => some (m :: ch)
  | none => none

/-- Printed name of a lifecycle state (the `Debug` rendering). -/
def stateName : KvmVmState → String
  | KvmVmState.Created => "Created"
  | KvmVmState.Running => "Running"
  | KvmVmState.Paused => "Paused"
  | KvmVmState.Shutdown => "Shutdown"

/-- Embeds `MachineOps::vm_state_transfer`: check the current state against the
expected old state (mismatch is a lifecycle-violation error with no side
effect), dispatch on the `(old, new)` pair — `(Created,Running)`,
`(Running,Paused)`, `(Paused,Running)`, `(_, Shutdown)` in that pattern
order, anything else an illegal-transition error — and finally check that
the dispatched handler left the state equal to the new state. -/
def vm_state_transfer (runOp pauseOp resumeOp destroyOp : Nat → Except Chain Unit)
    (cpus : List CpuSt) (vm_state : KvmVmState)
    (old_state new_state : KvmVmState) : VmOut :=
  if vm_state ≠ old_state then
    ⟨cpus, vm_state, [], some ["Vm lifecycle error: state check failed."]⟩
  else
    let r : VmOut :=
      match old_state, new_state with
      | KvmVmState.Created, KvmVmState.Running =>
        let s := vm_start runOp false cpus vm_state
        ⟨s.cpus, s.state, s.events, chainCtx "Failed to start vm." s.err⟩
      | KvmVmState.Running, KvmVmState.Paused =>
        let s := vm_pause pauseOp cpus vm_state
        ⟨s.cpus, s.state, s.events, chainCtx "Failed to pause vm." s.err⟩
      | KvmVmState.Paused, KvmVmState.Running =>
        let s := vm_resume resumeOp cpus vm_state
        ⟨s.cpus, s.state, s.events, chainCtx "Failed to resume vm." s.err⟩
      | _, KvmVmState.Shutdown =>
        let s := vm_destroy destroyOp cpus vm_state
        ⟨s.cpus, s.state, s.events, chainCtx "Failed to destroy vm." s.err⟩
      | _, _ =>
        ⟨cpus, vm_state, [], some ["Vm lifecycle error: this transform is illegal."]⟩
    match r.err with
    | some _ => r
    | none =>
      if r.state ≠ new_state then
        ⟨r.cpus, r.state, r.events,
          some ["Vm lifecycle error: state " ++ stateName old_state ++ " -> "
            ++ stateName new_state ++ " transform failed."]⟩
      else r

/-- The legal transition pairs of the lifecycle state machine, as the spec
states them: `(Created,Running)`, `(Running,Paused)`, `(Paused,Running)`,
`(*, Shutdown)`. -/
def legalPair : KvmVmState → KvmVmState → Bool
  | KvmVmState.Created, KvmVmState.Running => true
  | KvmVmState.Running, KvmVmState.Paused => true
  | KvmVmState.Paused, KvmVmState.Running => true
  | _, KvmVmState.Shutdown => true
  | _, _ => false

/-- The per-vCPU operation that `vm_state_transfer` dispatches to for a
given legal `(old, new)` pair. -/
def transferOp (runOp pauseOp resumeOp destroyOp : Nat → Except Chain Unit) :
    KvmVmState → KvmVmState → Nat → Except Chain Unit
  | KvmVmState.Created, KvmVmState.Running => runOp
  | KvmVmState.Running, KvmVmState.Paused => pauseOp
  | KvmVmState.Paused, KvmVmState.Running => resumeOp
  | _, KvmVmState.Shutdown => destroyOp
  | _, _ => fun _ => Except.ok ()

/-- A per-vCPU operation that always succeeds (used to instantiate oracles). -/
def okCpuOp : Nat → Except Chain Unit := fun _ => Except.ok ()

/-- A per-vCPU operation that succeeds below index `k` and fails at and above
it with inner error `ch`. -/
def failFromOp (k : Nat) (ch : Chain) : Nat → Except Chain Unit := fun i =>
  if i < k then Except.ok () else Except.error ch

/-- Modelled from the spec: the semantics of the standard-library barrier
(`std::sync::Barrier`, external to this crate) that `vm_start` creates — a
barrier of size `size` releases a waiter only once `size` distinct
participant threads have arrived at it. -/
def barrierReleases (size : Nat) (arrived : Finset Nat) : Prop :=
  size ≤ arrived.card

/-- Embeds `machine_manager::config::VmConfig`, restricted to the fields
`add_devices` reads.  Per-device configuration payloads are opaque argument
strings in this model; `devices` is the generic list of
`(device-type-name, raw-argument-string)` pairs. -/
structure VmConfig where
  mem_size : Nat
  serial : Option String
  pflashs : Option (List String)
  drives : Option (List String)
  nets : Option (List String)
  consoles : Option (List String)
  balloon : Option String
  rng : Option String
  devices : List (String × String)
deriving DecidableEq, Repr

/-- A realized device, as observable through the realization pipeline: the
category together with its configuration payload.  `unknown` stands for a
generically-declared device whose type name is not recognized (it is never
realized). -/
inductive Dev
  | rtc
  | serial (c : String)
  | pflash (c : String)
  | block (c : String)
  | net (c : String)
  | console (c : String)
  | balloon (c : String)
  | rng (c : String)
  | vsock (args : String)
  | unknown (name : String) (args : String)
deriving DecidableEq, Repr

/-- Oracles for the per-category `add_*_device` trait methods (implemented
by the concrete machine types, outside this file's source) and for the two
fallible steps inside `add_virtio_vsock` (`parse_vsock` and
`realize_virtio_mmio_device`). -/
structure DevOps where
  rtc : Except Chain Unit
  serial : String → Except Chain Unit
  pflash : String → Except Chain Unit
  block : String → Except Chain Unit
  net : String → Except Chain Unit
  console : String → Except Chain Unit
  balloon : String → Except Chain Unit
  rng : String → Except Chain Unit
  parseVsock : String → Except Chain Unit
  realizeVmm : String → Except Chain Unit

/-- Embeds `MachineOps::add_virtio_vsock`: parse the vsock arguments (a parse
failure propagates unwrapped via `?`), then realize the virtio-mmio device,
wrapping a realization failure with the virtio-mmio context. -/
def add_virtio_vsock (ops : DevOps) (cfg_args : String) : Except Chain Unit :=
  match ops.parseVsock cfg_args with
  | Except.error ch => Except.error ch
  | Except.ok _ =>
    match ops.realizeVmm cfg_args with
    | Except.error ch => Except.error ("Failed to realize virtio mmio." :: ch)
    | Except.ok _ => Except.ok ()

/-- Embeds `ErrorKind::AddDevErr(dev)` applied through `chain_err`: prepend the
category label to the inner error chain. -/
def wrapAddDev (dev : String) (ch : Chain) : Chain :=
  ("Failed to add " ++ dev ++ " device.") :: ch

/-- The `{:?}` (Debug) rendering of the device-type string in the
unsupported-device error message (escape sequences inside the name are not
modelled). -/
def quoteDbg (s : String) : String := "\"" ++ s ++ "\""

/-- Sequencing of two pipeline stages: if the first stage failed, its error
aborts the pipeline (the second stage never runs); otherwise the realized
devices accumulate and the second stage's outcome decides. -/
def devSeq : List Dev × Option Chain → List Dev × Option Chain → List Dev × Option Chain
  | (ds, some e), _ => (ds, some e)
  | (ds, none), r => (ds ++ r.1, r.2)

/-- The `for x in list`-with-`?` shape of each multi-entry category in
`add_devices`: add each entry in list order, wrapping a failure with `wrap`
and aborting at the first failure; entries added before the failure remain
realized. -/
def addEach (f : String → Except Chain Unit) (wrap : Chain → Chain)
    (mk : String → Dev) : List String → List Dev × Option Chain
  | [] => ([], none)
  | a :: rest =>
    match f a with
    | Except.ok _ =>
      let r := addEach f wrap mk rest
      (mk a :: r.1, r.2)
    | Except.error ch => ([], some (wrap ch))

/-- The RTC stage of `add_devices`: always attempted first, failure wrapped
with the "RTC" category label. -/
def addRtc (ops : DevOps) : List Dev × Option Chain :=
  match ops.rtc with
  | Except.ok _ => ([Dev.rtc], none)
  | Except.error ch => ([], some (wrapAddDev "RTC" ch))

/-- The generic pass of `add_devices`: each `(name, args)` pair is matched
against the built-in set — only "vhost-vsock-device" is recognized; an
unrecognized name is a hard failure naming the device type; a vsock failure
propagates unwrapped via `?`. -/
def addGeneric (ops : DevOps) : List (String × String) → List Dev × Option Chain
  | [] => ([], none)
  | d :: rest =>
    if d.1 = "vhost-vsock-device" then
      match add_virtio_vsock ops d.2 with
      | Except.ok _ =>
        let r := addGeneric ops rest
        (Dev.vsock d.2 :: r.1, r.2)
      | Except.error ch => ([], some ch)
    else ([], some ["Unsupported device: " ++ quoteDbg d.1])

/-- Embeds `MachineOps::add_devices`: apply the device categories in the fixed
order RTC, serial, pflash, block drives, network, consoles, balloon,
entropy (rng), then generically-declared devices; the first failure aborts
the remaining pipeline.  Every category except rng wraps its failure with
`AddDevErr`; the rng stage and the generic pass propagate failures as they
are (`?`).  The result is the list of devices realized, in order, together
with the error of the aborting stage, if any.  (`Option`-typed single-device
slots are iterated as at-most-one-element lists.) -/
def add_devices (ops : DevOps) (cfg : VmConfig) : List Dev × Option Chain :=
  devSeq (devSeq (devSeq (devSeq (devSeq (devSeq (devSeq (devSeq
    (addRtc ops)
    (addEach ops.serial (wrapAddDev "serial") Dev.serial cfg.serial.toList))
    (addEach ops.pflash (wrapAddDev "pflash") Dev.pflash (cfg.pflashs.getD [])))
    (addEach ops.block (wrapAddDev "block") Dev.block (cfg.drives.getD [])))
    (addEach ops.net (wrapAddDev "net") Dev.net (cfg.nets.getD [])))
    (addEach ops.console (wrapAddDev "console") Dev.console (cfg.consoles.getD [])))
    (addEach ops.balloon (wrapAddDev "balloon") Dev.balloon cfg.balloon.toList))
    (addEach ops.rng (fun ch => ch) Dev.rng cfg.rng.toList))
    (addGeneric ops cfg.devices)

/-- Whether an `Except` result is a success. -/
def exOk : Except Chain Unit → Bool
  | Except.ok _ => true
  | Except.error _ => false

/-- The error chain of an `Except` result (meaningful on failures). -/
def errOf : Except Chain Unit → Chain
  | Except.ok _ => []
  | Except.error ch => ch

/-- The device a generic `(name, args)` entry stands for. -/
def genDev (d : String × String) : Dev :=
  if d.1 = "vhost-vsock-device" then Dev.vsock d.2 else Dev.unknown d.1 d.2

/-- The fixed device order `add_devices` attempts for a configuration: RTC,
serial, pflash, block drives (in list order), network, consoles, balloon,
entropy (rng), then the generic devices. -/
def plannedDevs (cfg : VmConfig) : List Dev :=
  Dev.rtc :: (cfg.serial.toList.map Dev.serial
    ++ (cfg.pflashs.getD []).map Dev.pflash
    ++ (cfg.drives.getD []).map Dev.block
    ++ (cfg.nets.getD []).map Dev.net
    ++ (cfg.consoles.getD []).map Dev.console
    ++ cfg.balloon.toList.map Dev.balloon
    ++ cfg.rng.toList.map Dev.rng
    ++ cfg.devices.map genDev)

/-- Whether attempting a planned device succeeds under the given oracles. -/
def devOk (ops : DevOps) : Dev → Bool
  | Dev.rtc => exOk ops.rtc
  | Dev.serial c => exOk (ops.serial c)
  | Dev.pflash c => exOk (ops.pflash c)
  | Dev.block c => exOk (ops.block c)
  | Dev.net c => exOk (ops.net c)
  | Dev.console c => exOk (ops.console c)
  | Dev.balloon c => exOk (ops.balloon c)
  | Dev.rng c => exOk (ops.rng c)
  | Dev.vsock a => exOk (add_virtio_vsock ops a)
  | Dev.unknown _ _ => false

/-- The error `add_devices` reports when the given planned device is the
first failing one: wrapped with the category label for RTC, serial, pflash,
block, net, console and balloon; unwrapped for rng and vsock; the
unsupported-device message for an unrecognized generic name. -/
def devErr (ops : DevOps) : Dev → Chain
  | Dev.rtc => wrapAddDev "RTC" (errOf ops.rtc)
  | Dev.serial c => wrapAddDev "serial" (errOf (ops.serial c))
  | Dev.pflash c => wrapAddDev "pflash" (errOf (ops.pflash c))
  | Dev.block c => wrapAddDev "block" (errOf (ops.block c))
  | Dev.net c => wrapAddDev "net" (errOf (ops.net c))
  | Dev.console c => wrapAddDev "console" (errOf (ops.console c))
  | Dev.balloon c => wrapAddDev "balloon" (errOf (ops.balloon c))
  | Dev.rng c => errOf (ops.rng c)
  | Dev.vsock a => errOf (add_virtio_vsock ops a)
  | Dev.unknown n _ => ["Unsupported device: " ++ quoteDbg n]

/-- The first-failure characterization of a pipeline run over a planned
device list: the realized devices are the longest all-successful prefix and
the error is that of the first failing device, if any. -/
def charDevs (ops : DevOps) (l : List Dev) : List Dev × Option Chain :=
  (l.takeWhile (devOk ops),
   match l.dropWhile (devOk ops) with
   | [] => none
   | d :: _ => some (devErr ops d))

/-- Device-operation oracles that always succeed. -/
def okDevOps : DevOps :=
  ⟨Except.ok (), fun _ => Except.ok (), fun _ => Except.ok (), fun _ => Except.ok (),
   fun _ => Except.ok (), fun _ => Except.ok (), fun _ => Except.ok (),
   fun _ => Except.ok (), fun _ => Except.ok (), fun _ => Except.ok ()⟩

/-- Oracles where only the rng device fails. -/
def rngFailOps : DevOps :=
  { okDevOps with rng := fun _ => Except.error ["rng backend failed"] }

/-- Oracles where only the serial device fails. -/
def serialFailOps : DevOps :=
  { okDevOps with serial := fun _ => Except.error ["uart busy"] }

/-- A configuration with only an rng device configured. -/
def rngOnlyCfg : VmConfig := ⟨128, none, none, none, none, none, none, some "rng0", []⟩

/-- A configuration with only a serial device configured. -/
def serialOnlyCfg : VmConfig := ⟨128, some "ttyS0", none, none, none, none, none, none, []⟩

/-- Embeds `cpu::CPU`, restricted to what `init_vcpu` determines: the vCPU id, the
hypervisor vCPU file descriptor it wraps, and whether its architecture
registers have been initialized (`realize`d) from a boot configuration. -/
structure CPUrec where
  vcpu_id : Nat
  fd : Nat
  realized : Bool
deriving DecidableEq, Repr

/-- The creation loop of `MachineOps::init_vcpu`: for each `vcpu_id` in
`0..nr_cpus`, build a CPU around `fds[vcpu_id]` and register it with the
migration collaborator; indexing past the end of `fds` is a Rust panic,
modelled as `none`.  Returns the CPUs and the registered ids, in order. -/
def createCpus (fds : List Nat) : Nat → Nat → Option (List CPUrec × List Nat)
  | _, 0 => some ([], [])
  | i, n + 1 =>
    match fds[i]? with
    | none => none
    | some fd =>
      match createCpus fds (i + 1) n with
      | none => none
      | some r => some (⟨i, fd, false⟩ :: r.1, i :: r.2)

/-- The boot-configuration loop of `init_vcpu`: `realize` each CPU's
architecture registers in index order; `chain_err` wraps the first failure
with the failing index; CPUs already realized are not rolled back and the
remaining CPUs are left untouched. -/
def realizeCpus (realizeOp : Nat → Except Chain Unit) :
    Nat → List CPUrec → List CPUrec × Option Chain
  | _, [] => ([], none)
  | i, c :: rest =>
    match realizeOp i with
    | Except.ok _ =>
      let r := realizeCpus realizeOp (i + 1) rest
      ({ c with realized := true } :: r.1, r.2)
    | Except.error ch =>
      (c :: rest,
        some (("Failed to realize arch cpu register for CPU " ++ toString i ++ "/KVM") :: ch))

/-- Embeds `MachineOps::init_vcpu`: create `nr_cpus` CPUs over the hypervisor fds,
registering each with the migration collaborator as it is created, then —
only when a boot configuration is supplied — initialize every CPU's
registers in index order.  `none` models the Rust panic on an out-of-bounds
fd index.  The result carries (CPUs after the call, migration-registered
ids in order, error if register initialization aborted). -/
def init_vcpu (realizeOp : Nat → Except Chain Unit) (nr_cpus : Nat) (fds : List Nat)
    (has_boot_cfg : Bool) : Option (List CPUrec × List Nat × Option Chain) :=
  match createCpus fds 0 nr_cpus with
  | none => none
  | some r =>
    if has_boot_cfg then
      let r2 := realizeCpus realizeOp 0 r.1
      some (r2.1, r.2, r2.2)
    else
      some (r.1, r.2, none)

/-- The CPU record `init_vcpu` creates at index `j`, before register
initialization. -/
def cpuAt (fds : List Nat) (j : Nat) : CPUrec := ⟨j, fds.getD j 0, false⟩

/-- Observable result state of `init_memory`: which KVM listeners were
registered, the RAM subregions (base, size) added to the root of the
memory address space, and whether the address space was registered with
the migration collaborator. -/
structure MemOut where
  memListener : Bool
  ioListener : Bool
  regions : List (Nat × Nat)
  migRegistered : Bool
deriving DecidableEq, Repr

/-- The mapping loop of `init_memory`: insert each host mapping as a
subregion at its base address; the first `add_subregion` failure aborts,
wrapped with `RegMemRegionErr` naming the failing (base, size) pair;
regions inserted before the failure stay in place. -/
def addRegions (addOp : Nat × Nat → Except Chain Unit) :
    List (Nat × Nat) → List (Nat × Nat) × Option Chain
  | [] => ([], none)
  | m :: rest =>
    match addOp m with
    | Except.ok _ =>
      let r := addRegions addOp rest
      (m :: r.1, r.2)
    | Except.error ch =>
      ([], some (("Failed to register region in memory space: base=" ++ toString m.1
        ++ ",size=" ++ toString m.2) :: ch))

/-- Embeds `MachineOps::init_memory` (x86_64 build): register the KVM memory
listener and the KVM I/O listener, then — unless this is a migration
target — map the architecture RAM ranges (`create_host_mmaps`, an oracle
from the ranges to the host mappings) and insert each mapping as a
subregion; finally the memory address space is registered with the
migration collaborator, which is therefore never reached on any failure
path.  `ram_ranges` plays the role of `arch_ram_ranges(mem_size)`, an
abstract per-machine method. -/
def init_memory (listenMem listenIo : Except Chain Unit)
    (mmapRes : List (Nat × Nat) → Except Chain (List (Nat × Nat)))
    (addOp : Nat × Nat → Except Chain Unit)
    (ram_ranges : List (Nat × Nat)) (is_migrate : Bool) : MemOut × Option Chain :=
  match listenMem with
  | Except.error ch =>
    (⟨false, false, [], false⟩,
      some ("Failed to register KVM listener for memory space." :: ch))
  | Except.ok _ =>
    match listenIo with
    | Except.error ch =>
      (⟨true, false, [], false⟩,
        some ("Failed to register KVM listener for I/O address space." :: ch))
    | Except.ok _ =>
      if is_migrate then (⟨true, true, [], true⟩, none)
      else
        match mmapRes ram_ranges with
        | Except.error ch =>
          (⟨true, true, [], false⟩, some ("Failed to mmap guest ram." :: ch))
        | Except.ok mem_mappings =>
          let r := addRegions addOp mem_mappings
          match r.2 with
          | some ch => (⟨true, true, r.1, false⟩, some ch)
          | none => (⟨true, true, r.1, true⟩, none)

/-- A seccomp BPF rule, opaque in this model. -/
abbrev BpfRule := String

/-- Modelled from the spec: `balloon_allow_list` (virtio crate, not under
src/) extends the given syscall whitelist with the balloon-specific rules. -/
def balloon_allow_list (balloonRules : List BpfRule) (bpf_rules : List BpfRule) :
    List BpfRule :=
  bpf_rules ++ balloonRules

/-- Embeds `MachineOps::register_seccomp`: take the machine's syscall whitelist,
extend it with the balloon rules exactly when `balloon_enable` is set, and
push every rule into the seccomp filter; the returned list is the rule set
the realized filter installs, in push order. -/
def register_seccomp (whitelist balloonRules : List BpfRule)
    (balloon_enable : Bool) : List BpfRule :=
  let bpf_rules := whitelist
  let bpf_rules2 :=
    if balloon_enable then balloon_allow_list balloonRules bpf_rules else bpf_rules
  List.foldl (fun f r => f ++ [r]) [] bpf_rules2

/-- Per the virtio spec, max scsi target id (255). -/
def VIRTIO_SCSI_MAX_TARGET : Nat := 255

/-- Per the virtio spec, max lun (16383). -/
def VIRTIO_SCSI_MAX_LUN : Nat := 16383

/-- StratoVirt only supports peripheral-device addressing (8 bits for
lun), so the max lun id it accepts is 255. -/
def SUPPORT_SCSI_MAX_LUN : Nat := 255

/-- Embeds `machine_manager::config::ConfigError`, restricted to the variants
`parse_scsi_device` produces; `IntConversion` models the `CmdParser`
integer-parse failure of `get_value::<uN>` on an out-of-range literal. -/
inductive ConfigError
  | FieldIsMissing (field : String) (dev : String)
  | IllegalValue (what : String) (lo : Nat) (loIncl : Bool) (hi : Nat) (hiIncl : Bool)
  | IntConversion (field : String)
deriving DecidableEq, Repr

/-- The `scsi-device` arguments after `CmdParser.parse`: each recognized
key's value, numeric keys as the parsed non-negative literal. -/
structure ScsiDevArgs where
  id : Option String
  bus : Option String
  scsi_id : Option Nat
  lun : Option Nat
  serial : Option String
  drive : Option String
deriving DecidableEq, Repr

/-- A drive entry of `VmConfig.drives`, restricted to the fields
`parse_scsi_device` copies. -/
structure DriveArg where
  path_on_host : String
  read_only : Bool
  direct : Bool
  aio : Option String
deriving DecidableEq, Repr

/-- Embeds `machine_manager::config::scsi::ScsiDevConfig`. -/
structure ScsiDevConfig where
  id : String
  path_on_host : String
  serial : Option String
  bus : String
  read_only : Bool
  direct : Bool
  aio_type : Option String
  channel : Nat
  target : Nat
  lun : Nat
deriving DecidableEq, Repr

/-- Embeds `ScsiDevConfig::default()`. -/
def defaultScsiDevConfig : ScsiDevConfig :=
  ⟨"", "", none, "", false, false, none, 0, 0, 0⟩

/-- Embeds `CmdParser.get_value::<u8>`: an absent key stays absent; a value
outside the u8 range is an integer-conversion parse error. -/
def getU8 (field : String) (v : Option Nat) : Except ConfigError (Option Nat) :=
  match v with
  | none => Except.ok none
  | some n =>
    if n < 256 then Except.ok (some n)
    else Except.error (ConfigError.IntConversion field)

/-- Embeds `CmdParser.get_value::<u16>`: an absent key stays absent; a value
outside the u16 range is an integer-conversion parse error. -/
def getU16 (field : String) (v : Option Nat) : Except ConfigError (Option Nat) :=
  match v with
  | none => Except.ok none
  | some n =>
    if n < 65536 then Except.ok (some n)
    else Except.error (ConfigError.IntConversion field)

/-- Embeds `vm_config.drives.remove(&scsi_drive)` followed by the copy of the
backing-file fields: when the named drive exists it is removed from the
drive table and its fields are copied into the device configuration. -/
def scsiApplyDrive (drives : List (String × DriveArg)) (scsi_drive : String)
    (cfg : ScsiDevConfig) : ScsiDevConfig × List (String × DriveArg) :=
  match drives.find? (fun p => p.1 == scsi_drive) with
  | some p =>
    ({ cfg with
        path_on_host := p.2.path_on_host
        read_only := p.2.read_only
        direct := p.2.direct
        aio_type := p.2.aio },
      drives.eraseP (fun p2 => p2.1 == scsi_drive))
  | none => (cfg, drives)

/-- The `lun` step of `parse_scsi_device` and the final drive-table lookup:
a lun above `SUPPORT_SCSI_MAX_LUN` is an illegal-value error bounded by
0..=255 even though the declared virtio maximum is 16383. -/
def scsiLunStep (drives : List (String × DriveArg)) (scsi_drive : String)
    (lun_arg : Option Nat) (cfg : ScsiDevConfig) :
    Except ConfigError (ScsiDevConfig × List (String × DriveArg)) :=
  match getU16 "lun" lun_arg with
  | Except.error e => Except.error e
  | Except.ok none => Except.ok (scsiApplyDrive drives scsi_drive cfg)
  | Except.ok (some lun) =>
    if SUPPORT_SCSI_MAX_LUN < lun then
      Except.error
        (ConfigError.IllegalValue "lun of scsi device" 0 true SUPPORT_SCSI_MAX_LUN true)
    else Except.ok (scsiApplyDrive drives scsi_drive { cfg with lun := lun })

/-- Embeds `parse_scsi_device`: check `drive`, `serial`, `id`, `bus`, `scsi-id`
and `lun` in source order — a missing `drive`, `id` or `bus` is a
field-is-missing error; a `scsi-id` above the declared max target is
rejected (unreachable for u8-parsed values); then the lun check and the
drive-table lookup. -/
def parse_scsi_device (drives : List (String × DriveArg)) (args : ScsiDevArgs) :
    Except ConfigError (ScsiDevConfig × List (String × DriveArg)) :=
  match args.drive with
  | none => Except.error (ConfigError.FieldIsMissing "drive" "scsi device")
  | some scsi_drive =>
    let cfg0 := { defaultScsiDevConfig with serial := args.serial }
    match args.id with
    | none => Except.error (ConfigError.FieldIsMissing "id" "scsi device")
    | some idv =>
      let cfg1 := { cfg0 with id := idv }
      match args.bus with
      | none => Except.error (ConfigError.FieldIsMissing "bus" "scsi device")
      | some busv =>
        let cfg2 := { cfg1 with bus := busv }
        match getU8 "scsi-id" args.scsi_id with
        | Except.error e => Except.error e
        | Except.ok none => scsiLunStep drives scsi_drive args.lun cfg2
        | Except.ok (some target) =>
          if VIRTIO_SCSI_MAX_TARGET < target then
            Except.error (ConfigError.IllegalValue "scsi-id of scsi device" 0 true
              VIRTIO_SCSI_MAX_TARGET true)
          else scsiLunStep drives scsi_drive args.lun { cfg2 with target := target }

/-- A `create_host_mmaps` oracle that maps every requested range as-is. -/
def cxMmap : List (Nat × Nat) → Except Chain (List (Nat × Nat)) := fun rs => Except.ok rs

/-- An `add_subregion` oracle that accepts the region based at 0 and
rejects every other region. -/
def cxAddOp : Nat × Nat → Except Chain Unit := fun m =>
  if m.1 == 0 then Except.ok () else Except.error ["region overlap"]

theorem opLoop_ok (op : Nat → Except Chain Unit) (upd : CpuSt → CpuSt)
    (mkEv : Nat → Ev) (msg : Nat → String) (cpus : List CpuSt) (i : Nat)
    (h : ∀ j, j < cpus.length → op (i + j) = Except.ok ()) :
    opLoop op upd mkEv msg i cpus =
      ⟨cpus.map upd, (List.range' i cpus.length).map mkEv, none⟩ := by
  induction cpus generalizing i with
  | nil => simp [opLoop]
  | cons c rest ih =>
    have h0 : op i = Except.ok () := by simpa using h 0 (by simp)
    have hrest : ∀ j, j < rest.length → op (i + 1 + j) = Except.ok () := by
      intro j hj
      have := h (j + 1) (by simpa using Nat.succ_lt_succ hj)
      simpa [Nat.add_comm, Nat.add_assoc, Nat.add_left_comm] using this
    simp [opLoop, h0, ih (i + 1) hrest, List.range'_succ]

theorem opLoop_fail (op : Nat → Except Chain Unit) (upd : CpuSt → CpuSt)
    (mkEv : Nat → Ev) (msg : Nat → String) (cpus : List CpuSt) (i k : Nat)
    (ch : Chain) (hk : k < cpus.length)
    (hok : ∀ j, j < k → op (i + j) = Except.ok ())
    (hfail : op (i + k) = Except.error ch) :
    opLoop op upd mkEv msg i cpus =
      ⟨(cpus.take k).map upd ++ cpus.drop k,
        (List.range' i (k + 1)).map mkEv,
        some (msg (i + k) :: ch)⟩ := by
  induction cpus generalizing i k with
  | nil => simp at hk
  | cons c rest ih =>
    cases k with
    | zero =>
      have h0 : op i = Except.error ch := by simpa using hfail
      simp [opLoop, h0, List.range'_succ]
    | succ k2 =>
      have h0 : op i = Except.ok () := by simpa using hok 0 (Nat.succ_pos _)
      have hok2 : ∀ j, j < k2 → op (i + 1 + j) = Except.ok () := by
        intro j hj
        have := hok (j + 1) (Nat.succ_lt_succ hj)
        simpa [Nat.add_comm, Nat.add_assoc, Nat.add_left_comm] using this
      have hfail2 : op (i + 1 + k2) = Except.error ch := by
        have := hfail
        simpa [Nat.add_comm, Nat.add_assoc, Nat.add_left_comm] using this
      have hk2 : k2 < rest.length := Nat.lt_of_succ_lt_succ hk
      simp [opLoop, h0, ih (i + 1) k2 hk2 hok2 hfail2, List.range'_succ,
        Nat.add_comm, Nat.add_assoc, Nat.add_left_comm]

theorem vm_start_ok (runOp : Nat → Except Chain Unit) (paused : Bool)
    (cpus : List CpuSt) (st : KvmVmState)
    (h : ∀ i, i < cpus.length → runOp i = Except.ok ()) :
    vm_start runOp paused cpus st =
      ⟨cpus.map (fun c => { c with started := true }),
        (if paused then KvmVmState.Paused else KvmVmState.Running),
        Ev.barrierNew (cpus.length + 1) :: (List.range' 0 cpus.length).map Ev.runCpu
          ++ [Ev.setState (if paused then KvmVmState.Paused else KvmVmState.Running),
              Ev.barrierWait],
        none⟩ := by
  have hl := opLoop_ok runOp (fun c => { c with started := true }) Ev.runCpu
    (fun i => "Failed to run vcpu" ++ toString i) cpus 0
    (fun j hj => by simpa using h j hj)
  simp [vm_start, hl]

theorem vm_pause_ok (pauseOp : Nat → Except Chain Unit) (cpus : List CpuSt)
    (st : KvmVmState) (h : ∀ i, i < cpus.length → pauseOp i = Except.ok ()) :
    vm_pause pauseOp cpus st =
      ⟨cpus.map (fun c => { c with paused := true }), KvmVmState.Paused,
        (List.range' 0 cpus.length).map Ev.pauseCpu, none⟩ := by
  have hl := opLoop_ok pauseOp (fun c => { c with paused := true }) Ev.pauseCpu
    (fun i => "Failed to pause vcpu" ++ toString i) cpus 0
    (fun j hj => by simpa using h j hj)
  simp [vm_pause, hl]

theorem vm_resume_ok (resumeOp : Nat → Except Chain Unit) (cpus : List CpuSt)
    (st : KvmVmState) (h : ∀ i, i < cpus.length → resumeOp i = Except.ok ()) :
    vm_resume resumeOp cpus st =
      ⟨cpus.map (fun c => { c with paused := false }), KvmVmState.Running,
        (List.range' 0 cpus.length).map Ev.resumeCpu, none⟩ := by
  have hl := opLoop_ok resumeOp (fun c => { c with paused := false }) Ev.resumeCpu
    (fun i => "Failed to resume vcpu" ++ toString i) cpus 0
    (fun j hj => by simpa using h j hj)
  simp [vm_resume, hl]

theorem vm_destroy_ok (destroyOp : Nat → Except Chain Unit) (cpus : List CpuSt)
    (st : KvmVmState) (h : ∀ i, i < cpus.length → destroyOp i = Except.ok ()) :
    vm_destroy destroyOp cpus st =
      ⟨cpus.map (fun c => { c with destroyed := true }), KvmVmState.Shutdown,
        (List.range' 0 cpus.length).map Ev.destroyCpu, none⟩ := by
  have hl := opLoop_ok destroyOp (fun c => { c with destroyed := true }) Ev.destroyCpu
    (fun i => "Failed to destroy vcpu" ++ toString i) cpus 0
    (fun j hj => by simpa using h j hj)
  simp [vm_destroy, hl]

/-- Claim C2: `vm_state_transfer` is side-effect-free on rejection — a call
whose current state differs from the expected old state fails with a
lifecycle-violation error, invokes no per-vCPU operation and leaves the
state unchanged; a pair outside `(Created,Running)`, `(Running,Paused)`,
`(Paused,Running)`, `(*,Shutdown)` likewise fails with a
lifecycle-violation error with no side effect; and each of the legal pairs
succeeds and reaches the new state when the current state matches and every
dispatched per-vCPU operation succeeds. -/
theorem vm_state_transfer_rejects_without_side_effect
    (runOp pauseOp resumeOp destroyOp : Nat → Except Chain Unit)
    (cpus : List CpuSt) (st old new : KvmVmState) :
    (st ≠ old →
      vm_state_transfer runOp pauseOp resumeOp destroyOp cpus st old new =
        ⟨cpus, st, [], some ["Vm lifecycle error: state check failed."]⟩) ∧
    (st = old → legalPair old new = false →
      vm_state_transfer runOp pauseOp resumeOp destroyOp cpus st old new =
        ⟨cpus, st, [], some ["Vm lifecycle error: this transform is illegal."]⟩) ∧
    (st = old → legalPair old new = true →
      (∀ i, i < cpus.length →
        transferOp runOp pauseOp resumeOp destroyOp old new i = Except.ok ()) →
      (vm_state_transfer runOp pauseOp resumeOp destroyOp cpus st old new).err = none ∧
      (vm_state_transfer runOp pauseOp resumeOp destroyOp cpus st old new).state = new) := by
  refine ⟨?_, ?_, ?_⟩
  · intro hne
    simp [vm_state_transfer, hne]
  · intro heq hl
    subst heq
    cases st <;> cases new <;> simp [legalPair] at hl <;>
      simp [vm_state_transfer]
  · intro heq hl hops
    subst heq
    cases st <;> cases new <;> simp [legalPair] at hl <;>
      first
      | simp [vm_state_transfer, chainCtx,
          vm_start_ok runOp false cpus _ (fun i hi => hops i hi)]
      | simp [vm_state_transfer, chainCtx,
          vm_pause_ok pauseOp cpus _ (fun i hi => hops i hi)]
      | simp [vm_state_transfer, chainCtx,
          vm_resume_ok resumeOp cpus _ (fun i hi => hops i hi)]
      | simp [vm_state_transfer, chainCtx,
          vm_destroy_ok destroyOp cpus _ (fun i hi => hops i hi)]

theorem vm_state_transfer_rejects_without_side_effect_witness :
    (vm_state_transfer okCpuOp okCpuOp okCpuOp okCpuOp [⟨false, false, false⟩]
        KvmVmState.Paused KvmVmState.Created KvmVmState.Running =
      ⟨[⟨false, false, false⟩], KvmVmState.Paused, [],
        some ["Vm lifecycle error: state check failed."]⟩) ∧
    (vm_state_transfer okCpuOp okCpuOp okCpuOp okCpuOp [⟨false, false, false⟩]
        KvmVmState.Running KvmVmState.Running KvmVmState.Created =
      ⟨[⟨false, false, false⟩], KvmVmState.Running, [],
        some ["Vm lifecycle error: this transform is illegal."]⟩) ∧
    (vm_state_transfer okCpuOp okCpuOp okCpuOp okCpuOp [⟨false, false, false⟩]
        KvmVmState.Running KvmVmState.Running KvmVmState.Paused).state =
      KvmVmState.Paused :=
  ⟨(vm_state_transfer_rejects_without_side_effect okCpuOp okCpuOp okCpuOp okCpuOp
      [⟨false, false, false⟩] KvmVmState.Paused KvmVmState.Created
      KvmVmState.Running).1 (by decide),
   (vm_state_transfer_rejects_without_side_effect okCpuOp okCpuOp okCpuOp okCpuOp
      [⟨false, false, false⟩] KvmVmState.Running KvmVmState.Running
      KvmVmState.Created).2.1 rfl rfl,
   ((vm_state_transfer_rejects_without_side_effect okCpuOp okCpuOp okCpuOp okCpuOp
      [⟨false, false, false⟩] KvmVmState.Running KvmVmState.Running
      KvmVmState.Paused).2.2 rfl rfl (fun _ _ => rfl)).2⟩

/-- Claim C3: the `(Running, Paused)` transition pauses vCPUs in ascending
index order and stops at the first failure — if vCPU `k` of `N` fails to
pause, the operation reports an error citing index `k`, vCPUs `0..k-1`
remain paused (not resumed), vCPUs above `k` are never signalled, and the
machine state is not set to `Paused`. -/
theorem vm_pause_ascending_stop_on_first_failure
    (runOp pauseOp resumeOp destroyOp : Nat → Except Chain Unit)
    (cpus : List CpuSt) (k : Nat) (ch : Chain) (hk : k < cpus.length)
    (hok : ∀ j, j < k → pauseOp j = Except.ok ())
    (hfail : pauseOp k = Except.error ch) :
    vm_state_transfer runOp pauseOp resumeOp destroyOp cpus KvmVmState.Running
        KvmVmState.Running KvmVmState.Paused =
      ⟨(cpus.take k).map (fun c => { c with paused := true }) ++ cpus.drop k,
        KvmVmState.Running,
        (List.range' 0 (k + 1)).map Ev.pauseCpu,
        some ("Failed to pause vm." :: ("Failed to pause vcpu" ++ toString k) :: ch)⟩ ∧
    ∀ j, Ev.pauseCpu j ∈
        (vm_state_transfer runOp pauseOp resumeOp destroyOp cpus KvmVmState.Running
          KvmVmState.Running KvmVmState.Paused).events →
      j ≤ k := by
  have hl := opLoop_fail pauseOp (fun c => { c with paused := true }) Ev.pauseCpu
    (fun i => "Failed to pause vcpu" ++ toString i) cpus 0 k ch hk
    (fun j hj => by simpa using hok j hj) (by simpa using hfail)
  have hmain : vm_state_transfer runOp pauseOp resumeOp destroyOp cpus KvmVmState.Running
      KvmVmState.Running KvmVmState.Paused =
      ⟨(cpus.take k).map (fun c => { c with paused := true }) ++ cpus.drop k,
        KvmVmState.Running,
        (List.range' 0 (k + 1)).map Ev.pauseCpu,
        some ("Failed to pause vm." :: ("Failed to pause vcpu" ++ toString k) :: ch)⟩ := by
    simp [vm_state_transfer, vm_pause, hl, chainCtx]
  refine ⟨hmain, ?_⟩
  intro j hj
  rw [hmain] at hj
  simp only [List.mem_map, List.mem_range'_1, Ev.pauseCpu.injEq] at hj
  obtain ⟨m, ⟨-, hm⟩, rfl⟩ := hj
  omega

theorem vm_pause_ascending_stop_on_first_failure_witness :
    vm_state_transfer okCpuOp (failFromOp 2 ["signal lost"]) okCpuOp okCpuOp
        (List.replicate 4 ⟨true, false, false⟩) KvmVmState.Running
        KvmVmState.Running KvmVmState.Paused =
      ⟨[⟨true, true, false⟩, ⟨true, true, false⟩, ⟨true, false, false⟩,
          ⟨true, false, false⟩],
        KvmVmState.Running,
        [Ev.pauseCpu 0, Ev.pauseCpu 1, Ev.pauseCpu 2],
        some ["Failed to pause vm.", "Failed to pause vcpu2", "signal lost"]⟩ := by
  have h := (vm_pause_ascending_stop_on_first_failure okCpuOp
    (failFromOp 2 ["signal lost"]) okCpuOp okCpuOp
    (List.replicate 4 ⟨true, false, false⟩) 2 ["signal lost"]
    (by simp) (by intro j hj; interval_cases j <;> rfl) rfl).1
  rw [h]
  rfl

/-- Claim C8: in the `(Created, Running)` transition path, `vm_start`
creates a shared barrier of size `vcpu_count + 1` as its first step and the
controlling thread waits on that barrier after starting every vCPU thread;
under the modelled barrier semantics (`barrierReleases`), any arrival set
drawn from the `vcpu_count + 1` participants that releases the barrier
contains every vCPU execution thread, so `Running` is only reported once
all vCPUs are truly scheduled. -/
theorem vm_start_barrier_rendezvous (runOp : Nat → Except Chain Unit)
    (cpus : List CpuSt) (st : KvmVmState)
    (h : ∀ i, i < cpus.length → runOp i = Except.ok ()) :
    (vm_start runOp false cpus st).events.head? =
      some (Ev.barrierNew (cpus.length + 1)) ∧
    Ev.barrierWait ∈ (vm_start runOp false cpus st).events ∧
    (vm_start runOp false cpus st).err = none ∧
    (vm_start runOp false cpus st).state = KvmVmState.Running ∧
    ∀ arrived : Finset Nat, arrived ⊆ Finset.range (cpus.length + 1) →
      barrierReleases (cpus.length + 1) arrived →
      ∀ i, i < cpus.length → i ∈ arrived := by
  rw [vm_start_ok runOp false cpus st h]
  refine ⟨rfl, by simp, rfl, rfl, ?_⟩
  intro s hsub hrel i hi
  have hcard : (Finset.range (cpus.length + 1)).card ≤ s.card := by
    simpa [Finset.card_range] using hrel
  have hs : s = Finset.range (cpus.length + 1) :=
    Finset.eq_of_subset_of_card_le hsub hcard
  rw [hs]
  exact Finset.mem_range.mpr (Nat.lt_succ_of_lt hi)

theorem vm_start_barrier_rendezvous_witness :
    (vm_start okCpuOp false [⟨false, false, false⟩, ⟨false, false, false⟩]
        KvmVmState.Created).events.head? = some (Ev.barrierNew 3) ∧
    (1 : Nat) ∈ Finset.range 3 :=
  ⟨(vm_start_barrier_rendezvous okCpuOp
      [⟨false, false, false⟩, ⟨false, false, false⟩] KvmVmState.Created
      (fun _ _ => rfl)).1,
   (vm_start_barrier_rendezvous okCpuOp
      [⟨false, false, false⟩, ⟨false, false, false⟩] KvmVmState.Created
      (fun _ _ => rfl)).2.2.2.2 (Finset.range 3) (by decide)
      (by simp [barrierReleases]) 1 (by decide)⟩

/-- Claim C9 (implicit): `vm_start` takes a `paused` flag — when it is true
and the call succeeds, the machine state is set to `Paused` rather than
`Running` (so a machine moves directly from `Created` to `Paused` without
ever being `Running`), and for either flag value the state variable is
assigned immediately before the controlling thread waits on the startup
barrier. -/
theorem vm_start_paused_sets_paused_before_barrier_wait
    (runOp : Nat → Except Chain Unit) (cpus : List CpuSt) (st : KvmVmState)
    (h : ∀ i, i < cpus.length → runOp i = Except.ok ()) :
    (vm_start runOp true cpus st).err = none ∧
    (vm_start runOp true cpus st).state = KvmVmState.Paused ∧
    (∀ s, Ev.setState s ∈ (vm_start runOp true cpus st).events →
      s = KvmVmState.Paused) ∧
    ∀ p : Bool, ∃ pre,
      (vm_start runOp p cpus st).events =
        pre ++ [Ev.setState (vm_start runOp p cpus st).state, Ev.barrierWait] := by
  rw [vm_start_ok runOp true cpus st h]
  refine ⟨rfl, rfl, ?_, ?_⟩
  · intro s hs
    simp at hs
    exact hs
  · intro p
    rw [vm_start_ok runOp p cpus st h]
    exact ⟨Ev.barrierNew (cpus.length + 1) :: (List.range' 0 cpus.length).map Ev.runCpu,
      by simp⟩

theorem vm_start_paused_sets_paused_before_barrier_wait_witness :
    (vm_start okCpuOp true [⟨false, false, false⟩] KvmVmState.Created).state =
      KvmVmState.Paused :=
  (vm_start_paused_sets_paused_before_barrier_wait okCpuOp
    [⟨false, false, false⟩] KvmVmState.Created (fun _ _ => rfl)).2.1

theorem charDevs_cons (ops : DevOps) (d : Dev) (l : List Dev) :
    charDevs ops (d :: l) =
      if devOk ops d then (d :: (charDevs ops l).1, (charDevs ops l).2)
      else ([], some (devErr ops d)) := by
  by_cases hd : devOk ops d <;>
    simp [charDevs, List.takeWhile_cons, List.dropWhile_cons, hd]

theorem devSeq_cons (d : Dev) (A B : List Dev × Option Chain) :
    devSeq (d :: A.1, A.2) B = (d :: (devSeq A B).1, (devSeq A B).2) := by
  rcases A with ⟨ds, e⟩
  cases e <;> simp [devSeq]

theorem charDevs_append (ops : DevOps) (l1 l2 : List Dev) :
    charDevs ops (l1 ++ l2) = devSeq (charDevs ops l1) (charDevs ops l2) := by
  induction l1 with
  | nil =>
    show charDevs ops l2 = devSeq ([], none) (charDevs ops l2)
    rcases hB : charDevs ops l2 with ⟨bs, be⟩
    simp [devSeq]
  | cons d rest ih =>
    rw [List.cons_append, charDevs_cons, charDevs_cons]
    by_cases hd : devOk ops d
    · rw [if_pos hd, if_pos hd, ih, devSeq_cons]
    · rw [if_neg hd, if_neg hd]
      simp [devSeq]

theorem addEach_eq (f : String → Except Chain Unit) (wrap : Chain → Chain)
    (mk : String → Dev) (xs : List String) :
    addEach f wrap mk xs =
      ((xs.takeWhile (fun x => exOk (f x))).map mk,
       match xs.dropWhile (fun x => exOk (f x)) with
       | [] => none
       | x :: _ => some (wrap (errOf (f x)))) := by
  induction xs with
  | nil => rfl
  | cons a rest ih =>
    cases hfa : f a with
    | ok u =>
      cases u
      simp [addEach, hfa, ih, List.takeWhile_cons, List.dropWhile_cons, exOk]
    | error ch =>
      simp [addEach, hfa, List.takeWhile_cons, List.dropWhile_cons, exOk, errOf]

theorem charDevs_map (ops : DevOps) (mk : String → Dev) (wrap : Chain → Chain)
    (f : String → Except Chain Unit)
    (hOk : ∀ x, devOk ops (mk x) = exOk (f x))
    (hErr : ∀ x, devErr ops (mk x) = wrap (errOf (f x)))
    (xs : List String) :
    charDevs ops (xs.map mk) = addEach f wrap mk xs := by
  rw [addEach_eq]
  unfold charDevs
  have hcomp : (devOk ops ∘ mk) = fun x => exOk (f x) := funext hOk
  rw [List.takeWhile_map, List.dropWhile_map, hcomp]
  cases hdw : xs.dropWhile (fun x => exOk (f x)) with
  | nil => rfl
  | cons x l => simp [hErr x]

theorem charDevs_rtc (ops : DevOps) : charDevs ops [Dev.rtc] = addRtc ops := by
  cases hr : ops.rtc with
  | ok u => cases u; simp [charDevs, addRtc, devOk, devErr, exOk, hr]
  | error ch => simp [charDevs, addRtc, devOk, devErr, exOk, errOf, hr]

theorem charDevs_generic (ops : DevOps) (entries : List (String × String)) :
    charDevs ops (entries.map genDev) = addGeneric ops entries := by
  induction entries with
  | nil => rfl
  | cons d rest ih =>
    by_cases hn : d.1 = "vhost-vsock-device"
    · cases hv : add_virtio_vsock ops d.2 with
      | ok u =>
        cases u
        simp [addGeneric, hn, hv, ← ih, charDevs, genDev, List.takeWhile_cons,
          List.dropWhile_cons, devOk, exOk]
      | error ch =>
        simp [addGeneric, hn, hv, charDevs, genDev, List.takeWhile_cons,
          List.dropWhile_cons, devOk, devErr, exOk, errOf]
    · simp [addGeneric, hn, charDevs, genDev, List.takeWhile_cons,
        List.dropWhile_cons, devOk, devErr]

theorem add_devices_eq (ops : DevOps) (cfg : VmConfig) :
    add_devices ops cfg = charDevs ops (plannedDevs cfg) := by
  have hplan : plannedDevs cfg =
      (((((((([Dev.rtc] ++ cfg.serial.toList.map Dev.serial)
        ++ (cfg.pflashs.getD []).map Dev.pflash)
        ++ (cfg.drives.getD []).map Dev.block)
        ++ (cfg.nets.getD []).map Dev.net)
        ++ (cfg.consoles.getD []).map Dev.console)
        ++ cfg.balloon.toList.map Dev.balloon)
        ++ cfg.rng.toList.map Dev.rng)
        ++ cfg.devices.map genDev) := by
    simp [plannedDevs]
  rw [hplan, charDevs_append, charDevs_append, charDevs_append, charDevs_append,
    charDevs_append, charDevs_append, charDevs_append, charDevs_append,
    charDevs_rtc, charDevs_generic,
    charDevs_map ops Dev.serial (wrapAddDev "serial") ops.serial
      (fun _ => rfl) (fun _ => rfl),
    charDevs_map ops Dev.pflash (wrapAddDev "pflash") ops.pflash
      (fun _ => rfl) (fun _ => rfl),
    charDevs_map ops Dev.block (wrapAddDev "block") ops.block
      (fun _ => rfl) (fun _ => rfl),
    charDevs_map ops Dev.net (wrapAddDev "net") ops.net
      (fun _ => rfl) (fun _ => rfl),
    charDevs_map ops Dev.console (wrapAddDev "console") ops.console
      (fun _ => rfl) (fun _ => rfl),
    charDevs_map ops Dev.balloon (wrapAddDev "balloon") ops.balloon
      (fun _ => rfl) (fun _ => rfl),
    charDevs_map ops Dev.rng (fun ch => ch) ops.rng
      (fun _ => rfl) (fun _ => rfl)]
  rfl

/-- Claim C5: `add_devices` applies categories in the fixed order RTC,
serial, pflash, block drives (in list order), network, consoles, balloon,
entropy device, then generic devices; the first failure aborts the
remaining pipeline, so exactly the devices processed before the failing
entry are realized, and a generic device whose type name is not recognized
(anything other than the virtual-socket transport) is a hard failure naming
the unsupported device type. -/
theorem add_devices_fixed_order_first_failure (ops : DevOps) (cfg : VmConfig) :
    (add_devices ops cfg).1 = (plannedDevs cfg).takeWhile (devOk ops) ∧
    (add_devices ops cfg).2 =
      (match (plannedDevs cfg).dropWhile (devOk ops) with
       | [] => none
       | d :: _ => some (devErr ops d)) ∧
    ∀ name args, devErr ops (Dev.unknown name args) =
      ["Unsupported device: " ++ quoteDbg name] := by
  rw [add_devices_eq]
  exact ⟨rfl, rfl, fun _ _ => rfl⟩

/-- Claim C4 counterexample: a failing entropy (rng) device makes
`add_devices` fail with the inner error alone — the error is not wrapped
with a category label naming the device class, contradicting the claim that
every category in the pipeline (including the rng device) wraps its failure
with a label such as "Failed to add rng device.". -/
theorem add_devices_rng_failure_unlabelled :
    add_devices rngFailOps rngOnlyCfg = ([Dev.rtc], some ["rng backend failed"]) ∧
    (add_devices rngFailOps rngOnlyCfg).2 ≠
      some ["Failed to add rng device.", "rng backend failed"] := by
  refine ⟨rfl, ?_⟩
  intro h
  simp [show add_devices rngFailOps rngOnlyCfg =
    ([Dev.rtc], some ["rng backend failed"]) from rfl] at h

/-- Claim C4 (amended): in `add_devices`, the failure of each of the
categories RTC, serial, pflash, block drives, network, consoles and balloon
is wrapped with a category label naming the device class; the entropy (rng)
device and the generically-declared devices are the exceptions — an rng
failure and a generic vsock failure propagate without a category label (a
vsock realization failure carries only the virtio-mmio context), and an
unrecognized generic device type fails naming the type. -/
theorem add_devices_category_labels (ops : DevOps) (cfg : VmConfig) (d : Dev)
    (ds : List Dev)
    (hd : (plannedDevs cfg).dropWhile (devOk ops) = d :: ds) :
    (add_devices ops cfg).2 = some (devErr ops d) ∧
    (∀ ch, ops.rtc = Except.error ch →
      devErr ops Dev.rtc = "Failed to add RTC device." :: ch) ∧
    (∀ c ch, ops.serial c = Except.error ch →
      devErr ops (Dev.serial c) = "Failed to add serial device." :: ch) ∧
    (∀ c ch, ops.pflash c = Except.error ch →
      devErr ops (Dev.pflash c) = "Failed to add pflash device." :: ch) ∧
    (∀ c ch, ops.block c = Except.error ch →
      devErr ops (Dev.block c) = "Failed to add block device." :: ch) ∧
    (∀ c ch, ops.net c = Except.error ch →
      devErr ops (Dev.net c) = "Failed to add net device." :: ch) ∧
    (∀ c ch, ops.console c = Except.error ch →
      devErr ops (Dev.console c) = "Failed to add console device." :: ch) ∧
    (∀ c ch, ops.balloon c = Except.error ch →
      devErr ops (Dev.balloon c) = "Failed to add balloon device." :: ch) ∧
    (∀ c ch, ops.rng c = Except.error ch → devErr ops (Dev.rng c) = ch) ∧
    (∀ a ch, ops.parseVsock a = Except.error ch → devErr ops (Dev.vsock a) = ch) ∧
    (∀ a ch, ops.parseVsock a = Except.ok () → ops.realizeVmm a = Except.error ch →
      devErr ops (Dev.vsock a) = "Failed to realize virtio mmio." :: ch) ∧
    (∀ n a, devErr ops (Dev.unknown n a) = ["Unsupported device: " ++ quoteDbg n]) := by
  refine ⟨?_, ?_, ?_, ?_, ?_, ?_, ?_, ?_, ?_, ?_, ?_, fun _ _ => rfl⟩
  · rw [add_devices_eq]
    simp [charDevs, hd]
  · intro ch h; simp [devErr, wrapAddDev, errOf, h]
  · intro c ch h; simp [devErr, wrapAddDev, errOf, h]
  · intro c ch h; simp [devErr, wrapAddDev, errOf, h]
  · intro c ch h; simp [devErr, wrapAddDev, errOf, h]
  · intro c ch h; simp [devErr, wrapAddDev, errOf, h]
  · intro c ch h; simp [devErr, wrapAddDev, errOf, h]
  · intro c ch h; simp [devErr, wrapAddDev, errOf, h]
  · intro c ch h; simp [devErr, errOf, h]
  · intro a ch h; simp [devErr, add_virtio_vsock, errOf, h]
  · intro a ch hp hr; simp [devErr, add_virtio_vsock, errOf, hp, hr]

theorem add_devices_category_labels_witness :
    (add_devices serialFailOps serialOnlyCfg).2 =
      some ["Failed to add serial device.", "uart busy"] := by
  have h := add_devices_category_labels serialFailOps serialOnlyCfg
    (Dev.serial "ttyS0") [] rfl
  rw [h.1, h.2.2.1 "ttyS0" ["uart busy"] rfl]

theorem foldl_push (l acc : List BpfRule) :
    List.foldl (fun f r => f ++ [r]) acc l = acc ++ l := by
  induction l generalizing acc with
  | nil => simp
  | cons a rest ih => simp [ih, List.append_assoc]

/-- Claim C7: for every base syscall whitelist, `register_seccomp` with
`balloon_enable = true` installs a rule set that extends the rule set
installed with `balloon_enable = false` (so it is a superset, of greater or
equal size), and the extra rules are exactly the balloon-specific ones
contributed by `balloon_allow_list`. -/
theorem register_seccomp_balloon_superset (whitelist balloonRules : List BpfRule) :
    register_seccomp whitelist balloonRules true =
      register_seccomp whitelist balloonRules false ++ balloonRules ∧
    register_seccomp whitelist balloonRules false <+:
      register_seccomp whitelist balloonRules true ∧
    (register_seccomp whitelist balloonRules false).length ≤
      (register_seccomp whitelist balloonRules true).length := by
  have ht : register_seccomp whitelist balloonRules true = whitelist ++ balloonRules := by
    simp [register_seccomp, balloon_allow_list, foldl_push]
  have hf : register_seccomp whitelist balloonRules false = whitelist := by
    simp [register_seccomp, foldl_push]
  refine ⟨by rw [ht, hf], ?_, ?_⟩
  · rw [ht, hf]
    exact ⟨balloonRules, rfl⟩
  · rw [ht, hf]
    simp

/-- Claim C10 (implicit): `parse_scsi_device` rejects any lun argument
greater than 255, returning an illegal-value error bounded by 0..=255, even
though the declared virtio-scsi maximum lun is 16383; and it fails with a
field-is-missing error whenever any of the `drive`, `id` or `bus` arguments
is absent. -/
theorem parse_scsi_device_lun_bound_and_required_fields
    (drives : List (String × DriveArg)) (args : ScsiDevArgs) :
    (args.drive = none ∨ args.id = none ∨ args.bus = none →
      ∃ f, parse_scsi_device drives args =
        Except.error (ConfigError.FieldIsMissing f "scsi device")) ∧
    (∀ d i b v, args.drive = some d → args.id = some i → args.bus = some b →
      (args.scsi_id = none ∨ ∃ t, args.scsi_id = some t ∧ t < 256) →
      args.lun = some v → SUPPORT_SCSI_MAX_LUN < v → v < 65536 →
      parse_scsi_device drives args =
        Except.error (ConfigError.IllegalValue "lun of scsi device" 0 true
          SUPPORT_SCSI_MAX_LUN true)) ∧
    SUPPORT_SCSI_MAX_LUN = 255 ∧ VIRTIO_SCSI_MAX_LUN = 16383 ∧
    SUPPORT_SCSI_MAX_LUN < VIRTIO_SCSI_MAX_LUN := by
  refine ⟨?_, ?_, rfl, rfl, by decide⟩
  · intro hmiss
    cases hd : args.drive with
    | none => exact ⟨"drive", by simp [parse_scsi_device, hd]⟩
    | some dv =>
      cases hi : args.id with
      | none => exact ⟨"id", by simp [parse_scsi_device, hd, hi]⟩
      | some iv =>
        cases hb : args.bus with
        | none => exact ⟨"bus", by simp [parse_scsi_device, hd, hi, hb]⟩
        | some bv => simp [hd, hi, hb] at hmiss
  · intro d i b v hd hi hb hsid hlun hbig hsmall
    have hv1 : SUPPORT_SCSI_MAX_LUN < v := hbig
    rcases hsid with hnone | ⟨t, ht, htlt⟩
    · simp [parse_scsi_device, hd, hi, hb, hnone, getU8, scsiLunStep, getU16, hlun,
        hsmall, hv1]
    · have htgt : ¬ (VIRTIO_SCSI_MAX_TARGET < t) := by
        simp only [VIRTIO_SCSI_MAX_TARGET]
        omega
      simp [parse_scsi_device, hd, hi, hb, ht, getU8, htlt, htgt, scsiLunStep,
        getU16, hlun, hsmall, hv1]

theorem parse_scsi_device_lun_bound_and_required_fields_witness :
    (∃ f, parse_scsi_device [] ⟨none, none, none, none, none, none⟩ =
      Except.error (ConfigError.FieldIsMissing f "scsi device")) ∧
    parse_scsi_device []
        ⟨some "dev0", some "scsi0.0", none, some 300, none, some "d0"⟩ =
      Except.error (ConfigError.IllegalValue "lun of scsi device" 0 true
        SUPPORT_SCSI_MAX_LUN true) :=
  ⟨(parse_scsi_device_lun_bound_and_required_fields []
      ⟨none, none, none, none, none, none⟩).1 (Or.inl rfl),
   (parse_scsi_device_lun_bound_and_required_fields []
      ⟨some "dev0", some "scsi0.0", none, some 300, none, some "d0"⟩).2.1
      "d0" "dev0" "scsi0.0" 300 rfl rfl rfl (Or.inl rfl) rfl (by decide) (by decide)⟩

theorem createCpus_eq (fds : List Nat) (n i : Nat) (h : i + n ≤ fds.length) :
    createCpus fds i n = some ((List.range' i n).map (cpuAt fds), List.range' i n) := by
  induction n generalizing i with
  | zero => simp [createCpus]
  | succ m ih =>
    have hi : i < fds.length := by omega
    have hfd : fds[i]? = some (fds.getD i 0) := by
      rw [List.getElem?_eq_getElem hi]
      simp [List.getD, List.getElem?_eq_getElem hi]
    rw [List.range'_succ]
    simp only [createCpus, hfd, ih (i + 1) (by omega)]
    simp [cpuAt]

theorem realizeCpus_ok (realizeOp : Nat → Except Chain Unit) (cpus : List CPUrec)
    (i : Nat) (h : ∀ j, j < cpus.length → realizeOp (i + j) = Except.ok ()) :
    realizeCpus realizeOp i cpus =
      (cpus.map (fun c => { c with realized := true }), none) := by
  induction cpus generalizing i with
  | nil => rfl
  | cons c rest ih =>
    have h0 : realizeOp i = Except.ok () := by simpa using h 0 (by simp)
    have hrest : ∀ j, j < rest.length → realizeOp (i + 1 + j) = Except.ok () := by
      intro j hj
      have := h (j + 1) (by simpa using Nat.succ_lt_succ hj)
      simpa [Nat.add_comm, Nat.add_assoc, Nat.add_left_comm] using this
    simp [realizeCpus, h0, ih (i + 1) hrest]

theorem realizeCpus_fail (realizeOp : Nat → Except Chain Unit) (cpus : List CPUrec)
    (i k : Nat) (ch : Chain) (hk : k < cpus.length)
    (hok : ∀ j, j < k → realizeOp (i + j) = Except.ok ())
    (hfail : realizeOp (i + k) = Except.error ch) :
    realizeCpus realizeOp i cpus =
      ((cpus.take k).map (fun c => { c with realized := true }) ++ cpus.drop k,
        some (("Failed to realize arch cpu register for CPU " ++ toString (i + k)
          ++ "/KVM") :: ch)) := by
  induction cpus generalizing i k with
  | nil => simp at hk
  | cons c rest ih =>
    cases k with
    | zero =>
      have h0 : realizeOp i = Except.error ch := by simpa using hfail
      simp [realizeCpus, h0]
    | succ k2 =>
      have h0 : realizeOp i = Except.ok () := by simpa using hok 0 (Nat.succ_pos _)
      have hok2 : ∀ j, j < k2 → realizeOp (i + 1 + j) = Except.ok () := by
        intro j hj
        have := hok (j + 1) (Nat.succ_lt_succ hj)
        simpa [Nat.add_comm, Nat.add_assoc, Nat.add_left_comm] using this
      have hfail2 : realizeOp (i + 1 + k2) = Except.error ch := by
        have := hfail
        simpa [Nat.add_comm, Nat.add_assoc, Nat.add_left_comm] using this
      have hk2 : k2 < rest.length := Nat.lt_of_succ_lt_succ hk
      simp [realizeCpus, h0, ih (i + 1) k2 hk2 hok2 hfail2,
        Nat.add_comm, Nat.add_assoc, Nat.add_left_comm]

/-- Claim C6: for a vcpu count within the supplied fd list, `init_vcpu`
returns exactly `nr_cpus` CPUs with indices `0..nr_cpus-1` in order, each
bound to the corresponding hypervisor fd (`cpuAt`) and each registered
exactly once, in order, with the migration collaborator, whether or not a
boot configuration is supplied; with a boot configuration the registers
are initialized in index order — if every initialization succeeds all CPUs
are realized, and the first failure at index `k` aborts with an error
naming `k` while CPUs `0..k-1` stay realized (no rollback) and the rest
stay unrealized. -/
theorem init_vcpu_spec (realizeOp : Nat → Except Chain Unit) (nr_cpus : Nat)
    (fds : List Nat) (hlen : nr_cpus ≤ fds.length) :
    init_vcpu realizeOp nr_cpus fds false =
      some ((List.range' 0 nr_cpus).map (cpuAt fds), List.range' 0 nr_cpus, none) ∧
    ((∀ i, i < nr_cpus → realizeOp i = Except.ok ()) →
      init_vcpu realizeOp nr_cpus fds true =
        some (((List.range' 0 nr_cpus).map (cpuAt fds)).map
            (fun c => { c with realized := true }),
          List.range' 0 nr_cpus, none)) ∧
    (∀ k ch, k < nr_cpus → (∀ i, i < k → realizeOp i = Except.ok ()) →
      realizeOp k = Except.error ch →
      init_vcpu realizeOp nr_cpus fds true =
        some (((((List.range' 0 nr_cpus).map (cpuAt fds)).take k).map
              (fun c => { c with realized := true }))
            ++ ((List.range' 0 nr_cpus).map (cpuAt fds)).drop k,
          List.range' 0 nr_cpus,
          some (("Failed to realize arch cpu register for CPU " ++ toString k
            ++ "/KVM") :: ch))) := by
  have hc := createCpus_eq fds nr_cpus 0 (by omega)
  refine ⟨?_, ?_, ?_⟩
  · simp [init_vcpu, hc]
  · intro hall
    have hr := realizeCpus_ok realizeOp ((List.range' 0 nr_cpus).map (cpuAt fds)) 0
      (fun j hj => by
        have hj2 : j < nr_cpus := by simpa using hj
        simpa using hall j hj2)
    simp [init_vcpu, hc, hr]
  · intro k ch hk hok hfail
    have hr := realizeCpus_fail realizeOp ((List.range' 0 nr_cpus).map (cpuAt fds)) 0 k ch
      (by simpa using hk)
      (fun j hj => by simpa using hok j hj)
      (by simpa using hfail)
    simp [init_vcpu, hc, hr]

theorem init_vcpu_spec_witness :
    init_vcpu okCpuOp 3 [10, 11, 12] false =
      some ([⟨0, 10, false⟩, ⟨1, 11, false⟩, ⟨2, 12, false⟩], [0, 1, 2], none) ∧
    init_vcpu okCpuOp 3 [10, 11, 12] true =
      some ([⟨0, 10, true⟩, ⟨1, 11, true⟩, ⟨2, 12, true⟩], [0, 1, 2], none) ∧
    init_vcpu (failFromOp 2 ["bad msr"]) 3 [10, 11, 12] true =
      some ([⟨0, 10, true⟩, ⟨1, 11, true⟩, ⟨2, 12, false⟩], [0, 1, 2],
        some ["Failed to realize arch cpu register for CPU 2/KVM", "bad msr"]) := by
  refine ⟨?_, ?_, ?_⟩
  · rw [(init_vcpu_spec okCpuOp 3 [10, 11, 12] (by decide)).1]
    rfl
  · rw [(init_vcpu_spec okCpuOp 3 [10, 11, 12] (by decide)).2.1 (fun _ _ => rfl)]
    rfl
  · rw [(init_vcpu_spec (failFromOp 2 ["bad msr"]) 3 [10, 11, 12] (by decide)).2.2
      2 ["bad msr"] (by decide) (by intro j hj; interval_cases j <;> rfl) rfl]
    rfl

theorem addRegions_fail (addOp : Nat × Nat → Except Chain Unit)
    (ms1 ms2 : List (Nat × Nat)) (m : Nat × Nat) (ch : Chain)
    (hok : ∀ x, x ∈ ms1 → addOp x = Except.ok ())
    (hfail : addOp m = Except.error ch) :
    addRegions addOp (ms1 ++ m :: ms2) =
      (ms1, some (("Failed to register region in memory space: base=" ++ toString m.1
        ++ ",size=" ++ toString m.2) :: ch)) := by
  induction ms1 with
  | nil => simp [addRegions, hfail]
  | cons a rest ih =>
    simp [addRegions, hok a (by simp), ih (fun x hx => hok x (by simp [hx]))]

/-- Claim C1 counterexample: with two RAM ranges where inserting the second
fails, `init_memory` returns an error, yet the first region remains in the
guest address space — so on failure the address space does not contain
"none of the regions from that call"; only the migration registration is
skipped. -/
theorem init_memory_partial_regions_on_failure :
    (init_memory (Except.ok ()) (Except.ok ()) cxMmap cxAddOp
        [(0, 4096), (8192, 4096)] false).1.regions = [(0, 4096)] ∧
    (init_memory (Except.ok ()) (Except.ok ()) cxMmap cxAddOp
        [(0, 4096), (8192, 4096)] false).2 =
      some ["Failed to register region in memory space: base=8192,size=4096",
        "region overlap"] ∧
    (init_memory (Except.ok ()) (Except.ok ()) cxMmap cxAddOp
        [(0, 4096), (8192, 4096)] false).1.migRegistered = false := by
  refine ⟨rfl, ?_, rfl⟩
  rfl

/-- Claim C1 (amended): on any failure path `init_memory` never registers
the address space with the migration collaborator; a failure to insert a
RAM range aborts with an error identifying the failing base/size pair,
while the regions inserted before the failing one remain in the address
space; and a failure of the host mapping step aborts with the guest-ram
mmap context. -/
theorem init_memory_all_or_nothing_migration
    (listenMem listenIo : Except Chain Unit)
    (mmapRes : List (Nat × Nat) → Except Chain (List (Nat × Nat)))
    (addOp : Nat × Nat → Except Chain Unit)
    (ram_ranges : List (Nat × Nat)) (is_migrate : Bool) :
    ((init_memory listenMem listenIo mmapRes addOp ram_ranges is_migrate).2 ≠ none →
      (init_memory listenMem listenIo mmapRes addOp ram_ranges
        is_migrate).1.migRegistered = false) ∧
    (∀ ms1 ms2 m ch, listenMem = Except.ok () → listenIo = Except.ok () →
      is_migrate = false →
      mmapRes ram_ranges = Except.ok (ms1 ++ m :: ms2) →
      (∀ x, x ∈ ms1 → addOp x = Except.ok ()) →
      addOp m = Except.error ch →
      init_memory listenMem listenIo mmapRes addOp ram_ranges is_migrate =
        (⟨true, true, ms1, false⟩,
          some (("Failed to register region in memory space: base=" ++ toString m.1
            ++ ",size=" ++ toString m.2) :: ch))) ∧
    (∀ ch, listenMem = Except.ok () → listenIo = Except.ok () → is_migrate = false →
      mmapRes ram_ranges = Except.error ch →
      init_memory listenMem listenIo mmapRes addOp ram_ranges is_migrate =
        (⟨true, true, [], false⟩, some ("Failed to mmap guest ram." :: ch))) := by
  refine ⟨?_, ?_, ?_⟩
  · intro hne
    cases listenMem with
    | error ch => simp [init_memory]
    | ok u =>
      cases u
      cases listenIo with
      | error ch => simp [init_memory]
      | ok u2 =>
        cases u2
        by_cases hm : is_migrate
        · simp [init_memory, hm] at hne
        · cases hmm : mmapRes ram_ranges with
          | error ch => simp [init_memory, hm, hmm]
          | ok ms =>
            cases har : (addRegions addOp ms).2 with
            | none => simp [init_memory, hm, hmm, har] at hne
            | some ch => simp [init_memory, hm, hmm, har]
  · intro ms1 ms2 m ch hlm hli hmig hmm hok hfail
    subst hlm
    subst hli
    subst hmig
    simp [init_memory, hmm, addRegions_fail addOp ms1 ms2 m ch hok hfail]
  · intro ch hlm hli hmig hmm
    subst hlm
    subst hli
    subst hmig
    simp [init_memory, hmm]

theorem init_memory_all_or_nothing_migration_witness :
    init_memory (Except.ok ()) (Except.ok ()) cxMmap cxAddOp
        [(0, 65536), (131072, 65536), (262144, 65536)] false =
      (⟨true, true, [(0, 65536)], false⟩,
        some ["Failed to register region in memory space: base=131072,size=65536",
          "region overlap"]) := by
  rw [(init_memory_all_or_nothing_migration (Except.ok ()) (Except.ok ()) cxMmap
    cxAddOp [(0, 65536), (131072, 65536), (262144, 65536)] false).2.1
    [(0, 65536)] [(262144, 65536)] (131072, 65536) ["region overlap"]
    rfl rfl rfl rfl (by intro x hx; simp at hx; subst hx; rfl) rfl]
  rfl

end Stratovirt
